import Mathlib

/-!
Shallow embedding of the ingestion-normalization-filtering pipeline of the
instagram-reels-parser repository (src/apify_client_wrapper.py,
src/data_processor.py, src/models.py) and proofs about it.

Python unbounded integers holding counts (views, likes, comments, shares,
follower counts) are modelled as `Nat`; Python floats used for the engagement
rate are modelled as `ℚ`, with Python `round(x, 2)` modelled as
round-half-to-even at two decimal digits over `ℚ`.
-/

namespace Insta

/-- Python `a or b` on strings: the left operand when it is truthy (nonempty),
else the right operand. -/
def pyStrOr (a b : String) : String :=
  if a = "" then b else a

/-- Python `a or b` on counts: the left operand when it is truthy (nonzero),
else the right operand. -/
def pyNatOr (a b : Nat) : Nat :=
  if a = 0 then b else a

/-- Calendar date as in Python `datetime.date` (proleptic Gregorian). -/
structure PyDate where
  year : Nat
  month : Nat
  day : Nat
deriving DecidableEq, Repr

/-- Python `date.__le__`: lexicographic comparison by (year, month, day). -/
def pyDateLe (a b : PyDate) : Bool :=
  if a.year = b.year then
    if a.month = b.month then decide (a.day ≤ b.day)
    else decide (a.month < b.month)
  else decide (a.year < b.year)

/-- Timestamp as in Python `datetime.datetime`; `tzOffsetMinutes` is the UTC
offset of an aware datetime, `none` for a naive one. -/
structure PyDateTime where
  date : PyDate
  hour : Nat := 0
  minute : Nat := 0
  second : Nat := 0
  tzOffsetMinutes : Option Int := none
deriving DecidableEq, Repr

/-- Gregorian leap-year test. -/
def isLeapYear (y : Nat) : Bool :=
  decide (y % 4 = 0) && (decide (y % 100 ≠ 0) || decide (y % 400 = 0))

/-- Number of days in a month of a given year. -/
def daysInMonth (y m : Nat) : Nat :=
  if m = 2 then (if isLeapYear y then 29 else 28)
  else if m = 4 ∨ m = 6 ∨ m = 9 ∨ m = 11 then 30
  else 31

/-- Numeric value of a decimal digit character. -/
def digitVal (c : Char) : Nat := c.toNat - 48

/-- Read exactly `n` decimal digits from the front of the character list,
returning their value and the rest; fails if fewer digits are available. -/
def readDigits : Nat → Nat → List Char → Option (Nat × List Char)
  | 0, acc, cs => some (acc, cs)
  | Nat.succ k, acc, c :: cs =>
      if c.isDigit then readDigits k (acc * 10 + digitVal c) cs else none
  | Nat.succ _, _, [] => none

/-- Consume one expected character from the front of the list. -/
def expectChar (c : Char) : List Char → Option (List Char)
  | x :: xs => if x = c then some xs else none
  | [] => none

/-- Consume a run of decimal digits, returning how many were consumed. -/
def skipDigits : List Char → Nat × List Char
  | c :: cs =>
      if c.isDigit then
        let r := skipDigits cs
        (r.1 + 1, r.2)
      else (0, c :: cs)
  | [] => (0, [])

/-- Parse the `YYYY-MM-DD` prefix of an ISO-8601 string, validating month and
day ranges as `datetime.fromisoformat` does. -/
def parseIsoDate (cs : List Char) : Option (PyDate × List Char) :=
  match readDigits 4 0 cs with
  | none => none
  | some (y, r1) =>
    match expectChar '-' r1 with
    | none => none
    | some r2 =>
      match readDigits 2 0 r2 with
      | none => none
      | some (m, r3) =>
        match expectChar '-' r3 with
        | none => none
        | some r4 =>
          match readDigits 2 0 r4 with
          | none => none
          | some (d, r5) =>
            if 1 ≤ m ∧ m ≤ 12 ∧ 1 ≤ d ∧ d ≤ daysInMonth y m then
              some (⟨y, m, d⟩, r5)
            else none

/-- Parse the `HH[:MM[:SS[.ffffff]]]` time part of an ISO-8601 string. -/
def parseIsoTime (cs : List Char) : Option (Nat × Nat × Nat × List Char) :=
  match readDigits 2 0 cs with
  | none => none
  | some (hh, rest) =>
    match rest with
    | ':' :: rest2 =>
      match readDigits 2 0 rest2 with
      | none => none
      | some (mm, rest3) =>
        match rest3 with
        | ':' :: rest4 =>
          match readDigits 2 0 rest4 with
          | none => none
          | some (ss, rest5) =>
            match rest5 with
            | '.' :: rest6 =>
                let r := skipDigits rest6
                if r.1 = 0 then none else some (hh, mm, ss, r.2)
            | _ => some (hh, mm, ss, rest5)
        | _ => some (hh, mm, 0, rest3)
    | _ => some (hh, 0, 0, rest)

/-- Model of Python `datetime.fromisoformat` on the extended ISO-8601 format
`YYYY-MM-DD[{T or space}HH[:MM[:SS[.fff]]][{+ or -}HH:MM]]` (the form produced
by the pipeline after its `Z`-to-`+00:00` normalization); returns `none`
exactly where Python raises `ValueError`. -/
def pyFromIsoformat (s : String) : Option PyDateTime :=
  match parseIsoDate s.data with
  | none => none
  | some (dt, rest) =>
    match rest with
    | [] => some ⟨dt, 0, 0, 0, none⟩
    | sep :: rest1 =>
      if sep = 'T' ∨ sep = ' ' then
        match parseIsoTime rest1 with
        | none => none
        | some (hh, mm, ss, rest2) =>
          if hh ≤ 23 ∧ mm ≤ 59 ∧ ss ≤ 59 then
            match rest2 with
            | [] => some ⟨dt, hh, mm, ss, none⟩
            | sgn :: rest3 =>
              if sgn = '+' ∨ sgn = '-' then
                match readDigits 2 0 rest3 with
                | none => none
                | some (oh, r4) =>
                  match expectChar ':' r4 with
                  | none => none
                  | some r5 =>
                    match readDigits 2 0 r5 with
                    | none => none
                    | some (om, r6) =>
                      if r6 = [] ∧ oh ≤ 23 ∧ om ≤ 59 then
                        some ⟨dt, hh, mm, ss,
                          some (if sgn = '-' then -((oh * 60 + om : Nat) : Int)
                                else ((oh * 60 + om : Nat) : Int))⟩
                      else none
              else none
          else none
      else none

/-- Python `s.replace("Z", "+00:00")`: every occurrence of the character `Z`
is replaced by the five characters `+00:00`. -/
def pyReplaceZ (s : String) : String :=
  String.mk (s.data.foldr
    (fun c acc =>
      if c = 'Z' then '+' :: '0' :: '0' :: ':' :: '0' :: '0' :: acc else c :: acc)
    [])

/-- Civil date from a count of days since 0000-03-01 (proleptic Gregorian). -/
def civilFromDays (z : Nat) : PyDate :=
  let era := z / 146097
  let doe := z % 146097
  let yoe := (doe - doe / 1460 + doe / 36524 - doe / 146096) / 365
  let doy := doe - (365 * yoe + yoe / 4 - yoe / 100)
  let mp := (5 * doy + 2) / 153
  let d := doy - (153 * mp + 2) / 5 + 1
  let m := if mp < 10 then mp + 3 else mp - 9
  ⟨yoe + era * 400 + (if m ≤ 2 then 1 else 0), m, d⟩

/-- Model of Python `datetime.fromtimestamp` (epoch seconds to a naive local
datetime); the local timezone is modelled as UTC, and instants before year 0
are outside the modelled domain. -/
def pyFromTimestamp (n : Int) : PyDateTime :=
  let total : Int := n + 719468 * 86400
  let days : Nat := (total.fdiv 86400).toNat
  let secs : Nat := (total.emod 86400).toNat
  ⟨civilFromDays days, secs / 3600, secs % 3600 / 60, secs % 60, none⟩

/-- Value found under the `timestamp` key of a raw item: a string or a number. -/
inductive TSValue where
  | str (s : String)
  | num (n : Int)
deriving DecidableEq, Repr

/-- Nested `author` sub-object of a raw item. -/
structure AuthorObj where
  username : Option String := none
deriving DecidableEq, Repr

/-- Raw provider item: the string-keyed mapping returned by the scraping
provider, restricted to the keys the two parsers read. A field is `none` when
the key is absent (Python `.get` then yields the supplied default). -/
structure RawItem where
  type : Option String := none
  author : Option AuthorObj := none
  ownerUsername : Option String := none
  username : Option String := none
  shortCode : Option String := none
  code : Option String := none
  url : Option String := none
  timestamp : Option TSValue := none
  playsCount : Option Nat := none
  videoPlayCount : Option Nat := none
  viewsCount : Option Nat := none
  videoViewCount : Option Nat := none
  likesCount : Option Nat := none
  likes : Option Nat := none
  commentsCount : Option Nat := none
  comments : Option Nat := none
  sharesCount : Option Nat := none
  caption : Option String := none
deriving DecidableEq, Repr

/-- The canonical normalized record (`ReelData` in src/models.py). -/
structure ReelData where
  username : String
  follower_count : Nat := 0
  shortcode : String := ""
  url : String := ""
  taken_at : Option PyDateTime := none
  views : Nat := 0
  likes : Nat := 0
  comments : Nat := 0
  shares : Nat := 0
  engagement_rate : ℚ := 0
  caption : String := ""
deriving DecidableEq, Repr

/-- Timestamp resolution shared by both parsers: Python
`if timestamp: parse...` where a string is parsed as ISO-8601 after the
`Z` replacement and a number as epoch seconds. The outer `none` models the
`ValueError` raised by `fromisoformat` on a malformed string (caught by the
parser's surrounding `try`, rejecting the whole item); `some none` means the
field resolves to `None`. -/
def parseTakenAt : Option TSValue → Option (Option PyDateTime)
  | none => some none
  | some (TSValue.str s) =>
      if s = "" then some none
      else (pyFromIsoformat (pyReplaceZ s)).map some
  | some (TSValue.num n) =>
      if n = 0 then some none
      else some (some (pyFromTimestamp n))

/-- Model of `ApifyReelsScraper._parse_item` (reel schema). The surrounding
`try/except` is modelled by the `Option` short-circuit on the one fallible
step in the modelled domain, the ISO timestamp parse. -/
def parse_item (item : RawItem) : Option ReelData :=
  let author := item.author.getD ⟨none⟩
  let username :=
    pyStrOr (pyStrOr (author.username.getD "") (item.ownerUsername.getD ""))
      (item.username.getD "")
  let shortcode := pyStrOr (item.shortCode.getD "") (item.code.getD "")
  let url0 := item.url.getD ""
  let url :=
    if url0 = "" ∧ shortcode ≠ "" then
      "https://www.instagram.com/reel/" ++ shortcode ++ "/"
    else url0
  match parseTakenAt item.timestamp with
  | none => none
  | some taken_at =>
    let views :=
      pyNatOr (item.playsCount.getD 0)
        (pyNatOr (item.videoPlayCount.getD 0)
          (pyNatOr (item.viewsCount.getD 0) (item.videoViewCount.getD 0)))
    let likes := pyNatOr (item.likesCount.getD 0) (item.likes.getD 0)
    let comments := pyNatOr (item.commentsCount.getD 0) (item.comments.getD 0)
    let shares := item.sharesCount.getD 0
    let caption := item.caption.getD ""
    some ⟨username, 0, shortcode, url, taken_at, views, likes, comments, shares,
      0, caption⟩

/-- Model of `ApifyReelsScraper._parse_post_item` (post schema): owner-username
first, author-object fallback, post-style URL template, shorter views chain. -/
def parse_post_item (item : RawItem) : Option ReelData :=
  let username0 := pyStrOr (item.ownerUsername.getD "") (item.username.getD "")
  let author := item.author.getD ⟨none⟩
  let username := if username0 = "" then author.username.getD "" else username0
  let shortcode := pyStrOr (item.shortCode.getD "") (item.code.getD "")
  let url0 := item.url.getD ""
  let url :=
    if url0 = "" ∧ shortcode ≠ "" then
      "https://www.instagram.com/p/" ++ shortcode ++ "/"
    else url0
  match parseTakenAt item.timestamp with
  | none => none
  | some taken_at =>
    let views := pyNatOr (item.videoPlayCount.getD 0) (item.videoViewCount.getD 0)
    let likes := pyNatOr (item.likesCount.getD 0) (item.likes.getD 0)
    let comments := pyNatOr (item.commentsCount.getD 0) (item.comments.getD 0)
    let shares := item.sharesCount.getD 0
    let caption := item.caption.getD ""
    some ⟨username, 0, shortcode, url, taken_at, views, likes, comments, shares,
      0, caption⟩

/-- The client-side date skip condition of `fetch_reels` / `fetch_posts`:
Python `reel.taken_at and not (start_date <= reel.taken_at.date() <= end_date)`. -/
def skipByDate (startDate endDate : PyDate) : Option PyDateTime → Bool
  | none => false
  | some dt => !(pyDateLe startDate dt.date && pyDateLe dt.date endDate)

/-- The per-item normalization-and-filter loop of `fetch_reels` (lines 50-59):
parse each raw item, drop parse failures, drop records outside the date
window, keep the rest in order. `fetch_reels` applies no content-type filter. -/
def fetchReelsClientFilter (items : List RawItem) (startDate endDate : PyDate) :
    List ReelData :=
  match items with
  | [] => []
  | item :: rest =>
    match parse_item item with
    | none => fetchReelsClientFilter rest startDate endDate
    | some reel =>
      if skipByDate startDate endDate reel.taken_at then
        fetchReelsClientFilter rest startDate endDate
      else reel :: fetchReelsClientFilter rest startDate endDate

/-- The per-item loop of `fetch_posts` (lines 102-117): skip items whose
`type` is exactly `"Video"` or `"video"`, parse the rest with the post parser,
then apply the same date check. -/
def fetchPostsClientFilter (items : List RawItem) (startDate endDate : PyDate) :
    List ReelData :=
  match items with
  | [] => []
  | item :: rest =>
    if item.type.getD "" = "Video" ∨ item.type.getD "" = "video" then
      fetchPostsClientFilter rest startDate endDate
    else
      match parse_post_item item with
      | none => fetchPostsClientFilter rest startDate endDate
      | some parsed =>
        if skipByDate startDate endDate parsed.taken_at then
          fetchPostsClientFilter rest startDate endDate
        else parsed :: fetchPostsClientFilter rest startDate endDate

/-- Two-digit zero-padded decimal rendering. -/
def pad2 (n : Nat) : String :=
  if n < 10 then "0" ++ Nat.repr n else Nat.repr n

/-- Four-digit zero-padded decimal rendering. -/
def pad4 (n : Nat) : String :=
  if n < 10 then "000" ++ Nat.repr n
  else if n < 100 then "00" ++ Nat.repr n
  else if n < 1000 then "0" ++ Nat.repr n
  else Nat.repr n

/-- Python `date.isoformat()`: the `YYYY-MM-DD` rendering of a date. -/
def PyDate.isoformat (d : PyDate) : String :=
  pad4 d.year ++ "-" ++ pad2 d.month ++ "-" ++ pad2 d.day

/-- The `run_input` mapping `fetch_posts` builds for each per-username
provider request (lines 82-88). -/
structure PostActorInput where
  username : List String
  resultsLimit : Nat
  onlyPostsNewerThan : String
deriving DecidableEq, Repr

/-- The sequence of provider request inputs issued by `fetch_posts`, one per
username in order. -/
def postActorInputs (usernames : List String) (maxPerProfile : Nat)
    (startDate : PyDate) : List PostActorInput :=
  usernames.map (fun u => ⟨[u], maxPerProfile, startDate.isoformat⟩)

/-- Days before the start of year `y`, counted from 0000-01-01, proleptic
Gregorian (year 0 is a leap year). -/
def daysBeforeYear (y : Nat) : Nat :=
  365 * y + (y + 3) / 4 - (y + 99) / 100 + (y + 399) / 400

/-- Days before the start of month `m` within year `y`. -/
def daysBeforeMonth (y m : Nat) : Nat :=
  (List.range (m - 1)).foldl (fun acc i => acc + daysInMonth y (i + 1)) 0

/-- Ordinal day number of a date (days since 0000-01-01, plus one). -/
def dateOrdinal (d : PyDate) : Nat :=
  daysBeforeYear d.year + daysBeforeMonth d.year d.month + d.day

/-- Modelled from the spec: the relative "newer than N days" provider hint the
hybrid date-filter variant is claimed to send, `max(1, today - start_date in
days)`. No such computation exists in src/; this definition follows the
spec's words and is compared against what the code actually sends. -/
def specNewerThanDaysHint (today startDate : PyDate) : Nat :=
  max 1 (dateOrdinal today - dateOrdinal startDate)

/-- A Python `dict[str, int]` of follower counts, modelled as an association
list (first binding wins, as dict keys are unique). -/
abbrev FollowersMap := List (String × Nat)

/-- Python `m.get(k, 0)`. -/
def dictGetNat (m : FollowersMap) (k : String) : Nat :=
  (m.lookup k).getD 0

/-- Loop body of `enrich_with_followers` (src/data_processor.py lines 18-24):
a record with a positive follower count is left untouched; otherwise the count
is filled by `csv_followers.get(u, 0) or follower_counts.get(u, 0)` (CSV
override first, provider map second, first truthy value wins, else 0). -/
def enrichRecord (follower_counts csv_followers : FollowersMap)
    (reel : ReelData) : ReelData :=
  if reel.follower_count > 0 then reel
  else
    { reel with
      follower_count :=
        pyNatOr (dictGetNat csv_followers reel.username)
          (dictGetNat follower_counts reel.username) }

/-- Model of `enrich_with_followers` (src/data_processor.py lines 13-24); the
in-place mutation of the record list is modelled by returning the updated
list. -/
def enrich_with_followers (reels : List ReelData)
    (follower_counts csv_followers : FollowersMap) : List ReelData :=
  reels.map (enrichRecord follower_counts csv_followers)

/-- Configuration fields of `AppConfig` (src/config.py) consumed by the
scorer and filter. -/
structure AppConfig where
  max_reels_per_profile : Nat := 50
  min_views : Nat := 100000
  min_engagement_rate : ℚ := 3
deriving DecidableEq, Repr

/-- Round a rational to the nearest integer, ties to even, as Python `round`
does. -/
def roundHalfEven (q : ℚ) : ℤ :=
  let f := ⌊q⌋
  let r := q - (f : ℚ)
  if r < 1 / 2 then f
  else if 1 / 2 < r then f + 1
  else if f % 2 = 0 then f else f + 1

/-- Python `round(x, 2)` over the rational model of floats. -/
def pyRound2 (q : ℚ) : ℚ :=
  ((roundHalfEven (q * 100) : ℚ)) / 100

/-- Model of `calculate_engagement_rate` (src/data_processor.py lines 5-10):
`0.0` when the follower count is not positive, else
`round((likes + comments) / follower_count * 100, 2)`. -/
def calculate_engagement_rate (reel : ReelData) : ℚ :=
  if reel.follower_count ≤ 0 then 0
  else pyRound2 (((reel.likes : ℚ) + (reel.comments : ℚ)) / (reel.follower_count : ℚ) * 100)

/-- The per-record scoring assignment `reel.engagement_rate =
calculate_engagement_rate(reel)` performed by `filter_viral_reels` on every
input record. -/
def scoreRecord (reel : ReelData) : ReelData :=
  { reel with engagement_rate := calculate_engagement_rate reel }

/-- Reel-mode keep predicate: `views >= min_views and engagement_rate >=
min_engagement_rate`. -/
def reelKeep (config : AppConfig) (reel : ReelData) : Bool :=
  decide (config.min_views ≤ reel.views) &&
    decide (config.min_engagement_rate ≤ reel.engagement_rate)

/-- Post-mode keep predicate: `engagement_rate >= min_engagement_rate` only. -/
def postKeep (config : AppConfig) (reel : ReelData) : Bool :=
  decide (config.min_engagement_rate ≤ reel.engagement_rate)

/-- Stable descending insertion by a `Nat` key: the new element goes before
the first element whose key is less than or equal to its own, hence before
later-inserted equal keys and after nothing it should follow. -/
def insertDesc {α : Type} (key : α → Nat) (x : α) : List α → List α
  | [] => [x]
  | y :: ys => if key y ≤ key x then x :: y :: ys else y :: insertDesc key x ys

/-- Stable descending sort by a `Nat` key, modelling Python
`list.sort(key=..., reverse=True)` (stable, ties keep input order). -/
def sortDescBy {α : Type} (key : α → Nat) : List α → List α
  | [] => []
  | x :: xs => insertDesc key x (sortDescBy key xs)

/-- Model of `filter_viral_reels` (src/data_processor.py lines 27-48). The
first loop mutates `engagement_rate` on every input record; this in-place
effect is modelled by returning the pair (scored input list, filtered sorted
result). -/
def filter_viral_reels (reels : List ReelData) (config : AppConfig)
    (is_posts : Bool) : List ReelData × List ReelData :=
  let scored := reels.map scoreRecord
  if is_posts then
    (scored, sortDescBy (fun r => r.likes) (scored.filter (postKeep config)))
  else
    (scored, sortDescBy (fun r => r.views) (scored.filter (reelKeep config)))

/-- Raw item of the C2 counterexample: a carousel-typed item. -/
def sidecarItem : RawItem :=
  { type := some "Sidecar", username := some "acct1" }

/-- Raw item of the C2 counterexample: an upper-cased video-typed item. -/
def upperVideoItem : RawItem :=
  { type := some "VIDEO", username := some "acct2" }

/-- Raw item of the C3 counterexample: well-formed except for a timestamp
string that is not ISO-8601. -/
def badTimestampItem : RawItem :=
  { username := some "acct1", shortCode := some "ABC",
    likesCount := some 10, timestamp := some (TSValue.str "not-a-date") }

/-- Raw item of the C10 counterexample: no identifying field at all. -/
def emptyItem : RawItem := {}

/-! Helper lemmas about the stable descending insertion sort. -/

theorem mem_insertDesc {α : Type} (key : α → Nat) (x a : α) (l : List α) :
    a ∈ insertDesc key x l ↔ a = x ∨ a ∈ l := by
  induction l with
  | nil => simp [insertDesc]
  | cons y ys ih =>
      by_cases h : key y ≤ key x
      · simp [insertDesc, h]
      · simp only [insertDesc, if_neg h, List.mem_cons, ih]
        tauto

theorem pairwise_insertDesc {α : Type} (key : α → Nat) (x : α) (l : List α)
    (hl : l.Pairwise (fun a b => key b ≤ key a)) :
    (insertDesc key x l).Pairwise (fun a b => key b ≤ key a) := by
  induction l with
  | nil => simp [insertDesc]
  | cons y ys ih =>
      rw [List.pairwise_cons] at hl
      obtain ⟨hy, hys⟩ := hl
      by_cases h : key y ≤ key x
      · rw [insertDesc, if_pos h]
        refine List.Pairwise.cons ?_ (List.Pairwise.cons hy hys)
        intro z hz
        rcases List.mem_cons.mp hz with rfl | hz'
        · exact h
        · exact le_trans (hy z hz') h
      · rw [insertDesc, if_neg h]
        refine List.Pairwise.cons ?_ (ih hys)
        intro z hz
        rcases (mem_insertDesc key x z ys).mp hz with rfl | hz'
        · exact le_of_lt (Nat.lt_of_not_le h)
        · exact hy z hz'

theorem pairwise_sortDescBy {α : Type} (key : α → Nat) (l : List α) :
    (sortDescBy key l).Pairwise (fun a b => key b ≤ key a) := by
  induction l with
  | nil => simp [sortDescBy]
  | cons x xs ih => exact pairwise_insertDesc key x (sortDescBy key xs) ih

theorem length_insertDesc {α : Type} (key : α → Nat) (x : α) (l : List α) :
    (insertDesc key x l).length = l.length + 1 := by
  induction l with
  | nil => rfl
  | cons y ys ih =>
      by_cases h : key y ≤ key x
      · rw [insertDesc, if_pos h]
        simp
      · rw [insertDesc, if_neg h]
        simp [ih]

theorem length_sortDescBy {α : Type} (key : α → Nat) (l : List α) :
    (sortDescBy key l).length = l.length := by
  induction l with
  | nil => rfl
  | cons x xs ih =>
      rw [sortDescBy, length_insertDesc, ih]
      simp

theorem filter_insertDesc_eq {α : Type} (key : α → Nat) (x : α) (l : List α) :
    (insertDesc key x l).filter (fun z => key z == key x)
      = x :: l.filter (fun z => key z == key x) := by
  induction l with
  | nil => simp [insertDesc]
  | cons y ys ih =>
      by_cases h : key y ≤ key x
      · rw [insertDesc, if_pos h]
        simp [List.filter_cons]
      · have hne : (key y == key x) = false := by
          rw [beq_eq_false_iff_ne]
          intro he
          exact h (le_of_eq he)
        rw [insertDesc, if_neg h]
        simp only [List.filter_cons, hne, ih]
        simp

theorem filter_insertDesc_ne {α : Type} (key : α → Nat) (x : α) (v : Nat)
    (hv : ¬ key x = v) (l : List α) :
    (insertDesc key x l).filter (fun z => key z == v)
      = l.filter (fun z => key z == v) := by
  have hx : (key x == v) = false := by
    rw [beq_eq_false_iff_ne]; exact hv
  induction l with
  | nil => simp [insertDesc, hx]
  | cons y ys ih =>
      by_cases h : key y ≤ key x
      · rw [insertDesc, if_pos h]
        simp [List.filter_cons, hx]
      · rw [insertDesc, if_neg h]
        simp only [List.filter_cons, ih]

theorem sortDescBy_filter_key {α : Type} (key : α → Nat) (v : Nat) (l : List α) :
    (sortDescBy key l).filter (fun z => key z == v)
      = l.filter (fun z => key z == v) := by
  induction l with
  | nil => rfl
  | cons x xs ih =>
      by_cases h : key x = v
      · subst h
        rw [sortDescBy, filter_insertDesc_eq, ih]
        simp [List.filter_cons]
      · rw [sortDescBy, filter_insertDesc_ne key x v h, ih]
        have hx : (key x == v) = false := by
          rw [beq_eq_false_iff_ne]; exact h
        simp [List.filter_cons, hx]

theorem length_filter_mono {α : Type} {p q : α → Bool}
    (h : ∀ a, p a = true → q a = true) (l : List α) :
    (l.filter p).length ≤ (l.filter q).length := by
  induction l with
  | nil => simp
  | cons a l ih =>
      rw [List.filter_cons, List.filter_cons]
      by_cases hp : p a = true
      · rw [if_pos hp, if_pos (h a hp)]
        simpa using ih
      · rw [if_neg hp]
        by_cases hq : q a = true
        · rw [if_pos hq]
          exact le_trans ih (by simp)
        · rw [if_neg hq]
          exact ih

theorem filter_viral_reels_fst (reels : List ReelData) (config : AppConfig)
    (is_posts : Bool) :
    (filter_viral_reels reels config is_posts).1 = reels.map scoreRecord := by
  cases is_posts <;> rfl

theorem filter_viral_reels_snd_reel (reels : List ReelData) (config : AppConfig) :
    (filter_viral_reels reels config false).2
      = sortDescBy (fun r => r.views)
          ((reels.map scoreRecord).filter (reelKeep config)) := rfl

theorem filter_viral_reels_snd_post (reels : List ReelData) (config : AppConfig) :
    (filter_viral_reels reels config true).2
      = sortDescBy (fun r => r.likes)
          ((reels.map scoreRecord).filter (postKeep config)) := rfl

theorem enrichRecord_idem (fc csv : FollowersMap) (r : ReelData) :
    enrichRecord fc csv (enrichRecord fc csv r) = enrichRecord fc csv r := by
  obtain ⟨u, n, sc, url, ta, vw, lk, cm, sh, er, cap⟩ := r
  by_cases h : 0 < n
  · simp [enrichRecord, h]
  · simp [enrichRecord, h]

/-- Record used by the concrete engagement-rate scenario: 5000 likes, 200
comments, 100000 followers, 150000 views. -/
def sampleRecord : ReelData :=
  ⟨"acct1", 100000, "", "", none, 150000, 5000, 200, 0, 0, ""⟩

/-- Record with a zero (unknown) follower count. -/
def zeroFollowerRecord : ReelData := ⟨"a", 0, "", "", none, 0, 0, 0, 0, 0, ""⟩

/-- Record with a nonzero follower count already present. -/
def sevenFollowerRecord : ReelData := ⟨"a", 7, "", "", none, 0, 0, 0, 0, 0, ""⟩

/-- C1: the scorer computes `engagement_rate = round(100 * (likes + comments)
/ follower_count, 2)` when the follower count is positive and exactly 0 when
it is zero; for likes=5000, comments=200, follower_count=100000 the rate is
5.2 (= 26/5). -/
theorem C1_engagement_rate_formula (r : ReelData) :
    (0 < r.follower_count →
      calculate_engagement_rate r
        = pyRound2 (100 * ((r.likes : ℚ) + (r.comments : ℚ))
            / (r.follower_count : ℚ)))
    ∧ (r.follower_count = 0 → calculate_engagement_rate r = 0)
    ∧ calculate_engagement_rate sampleRecord = 26 / 5 := by
  refine ⟨?_, ?_, ?_⟩
  · intro h
    unfold calculate_engagement_rate
    rw [if_neg (by omega)]
    congr 1
    ring
  · intro h
    unfold calculate_engagement_rate
    rw [if_pos (by omega)]
  · norm_num [calculate_engagement_rate, sampleRecord, pyRound2, roundHalfEven]

/-- C1 witness: the formula branch applied to the concrete sample record. -/
theorem C1_engagement_rate_formula_witness :
    calculate_engagement_rate sampleRecord
      = pyRound2 (100 * ((sampleRecord.likes : ℚ) + (sampleRecord.comments : ℚ))
          / (sampleRecord.follower_count : ℚ)) :=
  (C1_engagement_rate_formula sampleRecord).1 (by decide)

/-- C2 counterexample: an item typed "Sidecar" appears in reel-mode output
(the reel fetch applies no type filter), and an item typed "VIDEO" appears in
post-mode output (the post fetch matches only the exact spellings "Video" and
"video", not case-insensitively). -/
theorem C2_structural_filter_counterexample :
    sidecarItem.type = some "Sidecar"
    ∧ (fetchReelsClientFilter [sidecarItem] ⟨2024, 1, 1⟩ ⟨2024, 12, 31⟩).length = 1
    ∧ upperVideoItem.type = some "VIDEO"
    ∧ (fetchPostsClientFilter [upperVideoItem] ⟨2024, 1, 1⟩ ⟨2024, 12, 31⟩).length
        = 1 := by
  decide

/-- C2 amended: only items whose type is exactly "Video" or "video" are
excluded from post-mode output (deleting them from the input changes
nothing); the reel fetch applies no type filter, so the two outputs are not
disjoint in the source items they admit. -/
theorem C2_amended_exact_video_exclusion (startDate endDate : PyDate)
    (items : List RawItem) :
    fetchPostsClientFilter items startDate endDate
      = fetchPostsClientFilter
          (items.filter (fun item =>
            !(decide (item.type.getD "" = "Video")
              || decide (item.type.getD "" = "video"))))
          startDate endDate := by
  induction items with
  | nil => rfl
  | cons item rest ih =>
      by_cases h : item.type.getD "" = "Video" ∨ item.type.getD "" = "video"
      · have hb : (!(decide (item.type.getD "" = "Video")
            || decide (item.type.getD "" = "video"))) = false := by
          rcases h with h | h <;> simp [h]
        rw [List.filter_cons, if_neg (by simp [hb])]
        rw [fetchPostsClientFilter, if_pos h]
        exact ih
      · have hb : (!(decide (item.type.getD "" = "Video")
            || decide (item.type.getD "" = "video"))) = true := by
          push_neg at h
          simp [h.1, h.2]
        rw [List.filter_cons, if_pos hb]
        rw [fetchPostsClientFilter, if_neg h, fetchPostsClientFilter, if_neg h]
        cases hp : parse_post_item item with
        | none => exact ih
        | some parsed =>
            by_cases hs : skipByDate startDate endDate parsed.taken_at = true
            · simp [hs, ih]
            · simp [hs, ih]

/-- C3 counterexample: an item whose timestamp string is not ISO-8601
parseable is rejected whole (the normalizer returns none), instead of
yielding a record with `taken_at = none` and the other fields resolved. -/
theorem C3_bad_timestamp_counterexample :
    badTimestampItem.timestamp = some (TSValue.str "not-a-date")
    ∧ pyFromIsoformat (pyReplaceZ "not-a-date") = none
    ∧ parse_item badTimestampItem = none := by
  decide

/-- C3 amended: a raw item whose timestamp is a nonempty string that fails
ISO-8601 parsing is rejected as a whole by the normalizer (it returns none
for the item, counted as a parse failure); only an absent, empty-string or
zero timestamp yields `taken_at = none` with the other fields resolved. -/
theorem C3_amended_whole_item_rejected (item : RawItem) (s : String)
    (hts : item.timestamp = some (TSValue.str s)) (hne : ¬ s = "")
    (hbad : pyFromIsoformat (pyReplaceZ s) = none) :
    parse_item item = none := by
  unfold parse_item
  rw [hts]
  simp [parseTakenAt, hne, hbad]

/-- C3 witness: the amended rejection applied to the concrete bad item. -/
theorem C3_amended_whole_item_rejected_witness :
    parse_item badTimestampItem = none :=
  C3_amended_whole_item_rejected badTimestampItem "not-a-date" rfl
    (by decide) (by decide)

/-- C4: the client-side date filter keeps a record iff its `taken_at` is
`none`, or its calendar date lies within `[start_date, end_date]` inclusive;
a record with no timestamp is always kept; and the reel fetch is exactly
parse-then-date-filter over the raw items. -/
theorem C4_date_filter_semantics (s e : PyDate) (r : ReelData)
    (items : List RawItem) :
    ((!skipByDate s e r.taken_at) = true ↔
      r.taken_at = none ∨ ∃ dt, r.taken_at = some dt
        ∧ pyDateLe s dt.date = true ∧ pyDateLe dt.date e = true)
    ∧ (r.taken_at = none → (!skipByDate s e r.taken_at) = true)
    ∧ fetchReelsClientFilter items s e
        = (items.filterMap parse_item).filter
            (fun rec => !skipByDate s e rec.taken_at) := by
  refine ⟨?_, ?_, ?_⟩
  · cases hta : r.taken_at with
    | none => simp [skipByDate]
    | some dt => simp [skipByDate]
  · intro h
    simp [h, skipByDate]
  · induction items with
    | nil => rfl
    | cons item rest ih =>
        cases hp : parse_item item with
        | none => simp [fetchReelsClientFilter, hp, List.filterMap_cons, ih]
        | some reel =>
            by_cases hs : skipByDate s e reel.taken_at = true
            · simp [fetchReelsClientFilter, hp, hs, List.filterMap_cons,
                List.filter_cons, ih]
            · simp [fetchReelsClientFilter, hp, hs, List.filterMap_cons,
                List.filter_cons, ih]

/-- C4 witness: a record with no timestamp is kept by the date filter. -/
theorem C4_date_filter_semantics_witness :
    (!skipByDate ⟨2024, 1, 1⟩ ⟨2024, 12, 31⟩ zeroFollowerRecord.taken_at) = true :=
  (C4_date_filter_semantics ⟨2024, 1, 1⟩ ⟨2024, 12, 31⟩ zeroFollowerRecord []).2.1
    rfl

/-- C5: reel-mode output is sorted non-increasing by views and post-mode
output non-increasing by likes, and records with equal sort keys appear in
the same relative order as in the (scored, threshold-filtered) input, i.e.
the sort is stable. -/
theorem C5_sort_descending_stable (reels : List ReelData) (config : AppConfig) :
    ((filter_viral_reels reels config false).2).Pairwise
        (fun a b => b.views ≤ a.views)
    ∧ ((filter_viral_reels reels config true).2).Pairwise
        (fun a b => b.likes ≤ a.likes)
    ∧ (∀ v : Nat,
        ((filter_viral_reels reels config false).2).filter (fun r => r.views == v)
          = ((reels.map scoreRecord).filter (reelKeep config)).filter
              (fun r => r.views == v))
    ∧ (∀ v : Nat,
        ((filter_viral_reels reels config true).2).filter (fun r => r.likes == v)
          = ((reels.map scoreRecord).filter (postKeep config)).filter
              (fun r => r.likes == v)) := by
  refine ⟨?_, ?_, ?_, ?_⟩
  · rw [filter_viral_reels_snd_reel]
    exact pairwise_sortDescBy (fun r : ReelData => r.views) _
  · rw [filter_viral_reels_snd_post]
    exact pairwise_sortDescBy (fun r : ReelData => r.likes) _
  · intro v
    rw [filter_viral_reels_snd_reel]
    exact sortDescBy_filter_key (fun r : ReelData => r.views) v _
  · intro v
    rw [filter_viral_reels_snd_post]
    exact sortDescBy_filter_key (fun r : ReelData => r.likes) v _

/-- C6: raising `min_views` or `min_engagement_rate` never increases the size
of the filtered result, in either mode. -/
theorem C6_threshold_monotonic (reels : List ReelData) (c1 c2 : AppConfig)
    (is_posts : Bool) (hv : c1.min_views ≤ c2.min_views)
    (he : c1.min_engagement_rate ≤ c2.min_engagement_rate) :
    ((filter_viral_reels reels c2 is_posts).2).length
      ≤ ((filter_viral_reels reels c1 is_posts).2).length := by
  cases is_posts
  · rw [filter_viral_reels_snd_reel, filter_viral_reels_snd_reel,
      length_sortDescBy, length_sortDescBy]
    apply length_filter_mono
    intro r hr
    simp only [reelKeep, Bool.and_eq_true, decide_eq_true_eq] at hr ⊢
    exact ⟨le_trans hv hr.1, le_trans he hr.2⟩
  · rw [filter_viral_reels_snd_post, filter_viral_reels_snd_post,
      length_sortDescBy, length_sortDescBy]
    apply length_filter_mono
    intro r hr
    simp only [postKeep, decide_eq_true_eq] at hr ⊢
    exact le_trans he hr

/-- C6 witness: monotonicity at concrete configurations raising only
`min_views`. -/
theorem C6_threshold_monotonic_witness :
    ((filter_viral_reels [sampleRecord] ⟨50, 1, 3⟩ false).2).length
      ≤ ((filter_viral_reels [sampleRecord] ⟨50, 0, 3⟩ false).2).length :=
  C6_threshold_monotonic [sampleRecord] ⟨50, 0, 3⟩ ⟨50, 1, 3⟩ false (by decide)
    (le_refl _)

/-- C7: follower enrichment is idempotent (a second pass with the same maps
changes nothing) and never overwrites a record whose follower count is
already nonzero. -/
theorem C7_enrichment_idempotent (reels : List ReelData)
    (follower_counts csv_followers : FollowersMap) :
    enrich_with_followers
        (enrich_with_followers reels follower_counts csv_followers)
        follower_counts csv_followers
      = enrich_with_followers reels follower_counts csv_followers
    ∧ ∀ (i : Nat) (r : ReelData), reels[i]? = some r → r.follower_count ≠ 0 →
        (enrich_with_followers reels follower_counts csv_followers)[i]?
          = some r := by
  constructor
  · unfold enrich_with_followers
    rw [List.map_map]
    exact List.map_congr_left fun a _ =>
      enrichRecord_idem follower_counts csv_followers a
  · intro i r hi hne
    unfold enrich_with_followers
    rw [List.getElem?_map, hi]
    simp [enrichRecord, Nat.pos_of_ne_zero hne]

/-- C7 witness: a record with follower count 7 is left untouched. -/
theorem C7_enrichment_idempotent_witness :
    (enrich_with_followers [sevenFollowerRecord] [] [])[0]?
      = some sevenFollowerRecord :=
  (C7_enrichment_idempotent [sevenFollowerRecord] [] []).2 0 sevenFollowerRecord
    rfl (by decide)

/-- C8: the scoring-and-filtering stage assigns `engagement_rate` on every
input record (survivor or not) and changes no other field of any input
record. -/
theorem C8_scores_all_frames_rest (reels : List ReelData) (config : AppConfig)
    (is_posts : Bool) :
    (filter_viral_reels reels config is_posts).1.length = reels.length
    ∧ ∀ (i : Nat) (r : ReelData), reels[i]? = some r →
        (filter_viral_reels reels config is_posts).1[i]? = some (scoreRecord r)
        ∧ (scoreRecord r).engagement_rate = calculate_engagement_rate r
        ∧ (scoreRecord r).username = r.username
        ∧ (scoreRecord r).follower_count = r.follower_count
        ∧ (scoreRecord r).shortcode = r.shortcode
        ∧ (scoreRecord r).url = r.url
        ∧ (scoreRecord r).taken_at = r.taken_at
        ∧ (scoreRecord r).views = r.views
        ∧ (scoreRecord r).likes = r.likes
        ∧ (scoreRecord r).comments = r.comments
        ∧ (scoreRecord r).shares = r.shares
        ∧ (scoreRecord r).caption = r.caption := by
  refine ⟨?_, ?_⟩
  · rw [filter_viral_reels_fst, List.length_map]
  · intro i r hi
    rw [filter_viral_reels_fst, List.getElem?_map, hi]
    exact ⟨rfl, rfl, rfl, rfl, rfl, rfl, rfl, rfl, rfl, rfl, rfl, rfl⟩

/-- C8 witness: the scored list at index 0 of a concrete run, a record that
does not survive the threshold filter. -/
theorem C8_scores_all_frames_rest_witness :
    (filter_viral_reels [zeroFollowerRecord] ⟨50, 100000, 3⟩ false).1[0]?
      = some (scoreRecord zeroFollowerRecord) :=
  ((C8_scores_all_frames_rest [zeroFollowerRecord] ⟨50, 100000, 3⟩ false).2 0
    zeroFollowerRecord rfl).1

/-- C9 counterexample: the post fetch sends `onlyPostsNewerThan =
start_date.isoformat()` (an absolute calendar date), not the relative
`max(1, today - start_date in days)` value the claim describes: for
start 2024-01-05 and today 2024-02-04 the spec value is 30 while the code
sends "2024-01-05". -/
theorem C9_relative_hint_counterexample :
    (postActorInputs ["acct1"] 50 ⟨2024, 1, 5⟩).map
        (fun inp => inp.onlyPostsNewerThan) = ["2024-01-05"]
    ∧ specNewerThanDaysHint ⟨2024, 2, 4⟩ ⟨2024, 1, 5⟩ = 30
    ∧ ¬ ("2024-01-05"
          = Nat.repr (specNewerThanDaysHint ⟨2024, 2, 4⟩ ⟨2024, 1, 5⟩)) := by
  decide

/-- C9 amended: every provider request built by the post fetch carries an
`onlyPostsNewerThan` hint equal to `start_date` in ISO format (an absolute
date, independent of today), together with the per-profile result limit. -/
theorem C9_amended_absolute_date_hint (usernames : List String) (limit : Nat)
    (startDate : PyDate) (inp : PostActorInput)
    (h : inp ∈ postActorInputs usernames limit startDate) :
    inp.onlyPostsNewerThan = startDate.isoformat
    ∧ inp.resultsLimit = limit := by
  unfold postActorInputs at h
  obtain ⟨u, _, rfl⟩ := List.mem_map.mp h
  exact ⟨rfl, rfl⟩

/-- C9 witness: the amended statement at a concrete request. -/
theorem C9_amended_absolute_date_hint_witness :
    (⟨["acct1"], 50, PyDate.isoformat ⟨2024, 1, 5⟩⟩
        : PostActorInput).onlyPostsNewerThan = PyDate.isoformat ⟨2024, 1, 5⟩
    ∧ (⟨["acct1"], 50, PyDate.isoformat ⟨2024, 1, 5⟩⟩
        : PostActorInput).resultsLimit = 50 :=
  C9_amended_absolute_date_hint ["acct1"] 50 ⟨2024, 1, 5⟩ _
    (by simp [postActorInputs])

/-- C10 counterexample: an item with no identifying field at all still yields
a record, with empty username and empty url, which appears in the reel-fetch
output; the post parser likewise returns such a record instead of rejecting
the item. -/
theorem C10_no_identity_counterexample :
    (fetchReelsClientFilter [emptyItem] ⟨2024, 1, 1⟩ ⟨2024, 12, 31⟩).map
        (fun r => (r.username, r.url)) = [("", "")]
    ∧ parse_post_item emptyItem
        = some ⟨"", 0, "", "", none, 0, 0, 0, 0, 0, ""⟩ := by
  decide

/-- C10 amended: an item whose username candidates, shortcode, code and url
are all absent or empty (and which has no timestamp) is NOT excluded: the
normalizer returns a record with empty username and empty url, and that
record appears in the fetched record list. -/
theorem C10_amended_not_excluded (item : RawItem)
    (ha : (item.author.getD ⟨none⟩).username.getD "" = "")
    (ho : item.ownerUsername.getD "" = "")
    (hu : item.username.getD "" = "")
    (hsc : item.shortCode.getD "" = "")
    (hc : item.code.getD "" = "")
    (hurl : item.url.getD "" = "")
    (hts : item.timestamp = none) :
    (∃ r, parse_item item = some r ∧ r.username = "" ∧ r.url = ""
      ∧ r.taken_at = none)
    ∧ ∀ s e : PyDate, (fetchReelsClientFilter [item] s e).length = 1 := by
  have hp : parse_item item = some ⟨"", 0, "", "", none,
      pyNatOr (item.playsCount.getD 0) (pyNatOr (item.videoPlayCount.getD 0)
        (pyNatOr (item.viewsCount.getD 0) (item.videoViewCount.getD 0))),
      pyNatOr (item.likesCount.getD 0) (item.likes.getD 0),
      pyNatOr (item.commentsCount.getD 0) (item.comments.getD 0),
      item.sharesCount.getD 0, 0, item.caption.getD ""⟩ := by
    unfold parse_item
    rw [hts]
    simp [parseTakenAt, pyStrOr, ha, ho, hu, hsc, hc, hurl]
  refine ⟨⟨_, hp, rfl, rfl, rfl⟩, ?_⟩
  intro s e
  simp [fetchReelsClientFilter, hp, skipByDate]

/-- C10 witness: the amended statement at the fully-empty item. -/
theorem C10_amended_not_excluded_witness :
    (∃ r, parse_item emptyItem = some r ∧ r.username = "" ∧ r.url = ""
      ∧ r.taken_at = none)
    ∧ ∀ s e : PyDate, (fetchReelsClientFilter [emptyItem] s e).length = 1 :=
  C10_amended_not_excluded emptyItem rfl rfl rfl rfl rfl rfl rfl

end Insta
